import Mathlib

/-!
Verification development for the corporate billing views
(`corporate/views.py`): seat-count signing, upgrade-parameter
validation, the upgrade/downgrade/replace-payment-source request
handlers, the initial-upgrade and billing-home pages, and the
classification of errors at the request boundary.

Python strings and integers are modelled shallowly: `pyStr` models
`str` on a natural number and `pyInt?` models `int` on a string
(restricted to optionally-sign-prefixed decimal numerals, the only
inputs this code ever feeds it).
-/

namespace Billing

/-- Decimal digit to its character, as Python's `str` prints it. -/
def pyDigitChar (d : Nat) : Char :=
  match d with
  | 0 => '0' | 1 => '1' | 2 => '2' | 3 => '3' | 4 => '4'
  | 5 => '5' | 6 => '6' | 7 => '7' | 8 => '8' | _ => '9'

/-- Character back to its decimal digit value. -/
def pyDigitVal (c : Char) : Nat :=
  match c with
  | '0' => 0 | '1' => 1 | '2' => 2 | '3' => 3 | '4' => 4
  | '5' => 5 | '6' => 6 | '7' => 7 | '8' => 8 | _ => 9

/-- Is this character a decimal digit? -/
def isPyDigit (c : Char) : Bool :=
  (['0', '1', '2', '3', '4', '5', '6', '7', '8', '9'] : List Char).contains c

/-- Model of Python `str` on a natural number: its decimal numeral. -/
def pyStr (n : Nat) : String :=
  if n = 0 then "0"
  else String.mk (((Nat.digits 10 n).map pyDigitChar).reverse)

/-- Parse a nonempty all-digit string as a natural number
(big-endian decimal). -/
def pyParseNat (s : String) : Option Nat :=
  if s.data ≠ [] ∧ s.data.all isPyDigit then
    some (Nat.ofDigits 10 (s.data.reverse.map pyDigitVal))
  else none

/-- Model of Python `int` on a string: an optional leading minus sign
followed by a decimal numeral. -/
def pyInt? (s : String) : Option Int :=
  match s.data with
  | '-' :: rest => (pyParseNat (String.mk rest)).map (fun n => -(n : Int))
  | _ => (pyParseNat s).map (fun n => (n : Int))

/-!
## Seat-count signer

Modelled from the spec: `sign_string` / `unsign_string` live in
`corporate/lib/stripe.py`, which is not part of the excerpted source;
the spec describes them as a keyed-signature primitive (HMAC or
equivalent) over a payload bound to a salt.  We model the signature
symbolically: a `Sig.mac value salt` term can only be produced by the
signer, and verification checks that the token's signature is exactly
the mac of its payload under the presented salt.
-/

/-- Modelled from the spec: a symbolic keyed MAC term binding a payload
string to a salt. -/
inductive Sig where
  | mac (value : String) (salt : String)
deriving DecidableEq

/-- A signed token: the payload together with its signature. -/
structure SignedString where
  value : String
  sig : Sig
deriving DecidableEq

/-- Modelled from the spec: sign a string under a salt. -/
def sign_string (value : String) (salt : String) : SignedString :=
  ⟨value, Sig.mac value salt⟩

/-- Modelled from the spec: verify a signed token against a salt,
returning the payload on success and `none` (Django `BadSignature`)
on mismatch. -/
def unsign_string (signed : SignedString) (salt : String) : Option String :=
  if signed.sig = Sig.mac signed.value salt then some signed.value else none

/-!
## Errors and responses
-/

/-- Modelled from the spec: the support-contact address
(`settings.ZULIP_ADMINISTRATOR`). -/
def ZULIP_ADMINISTRATOR : String := "zulip-admin@example.com"

/-- Modelled from the spec: `BillingError.CONTACT_SUPPORT`, the generic
user-facing message. -/
def CONTACT_SUPPORT : String :=
  "Something went wrong. Please contact " ++ ZULIP_ADMINISTRATOR ++ "."

/-- Modelled from the spec: a `BillingError` carries a stable
machine-readable description and a human-readable message. -/
structure BillingError where
  description : String
  message : String
deriving DecidableEq

/-- `BillingError` built with only a description uses the generic
contact-support message. -/
def billingError (description : String) : BillingError :=
  ⟨description, CONTACT_SUPPORT⟩

/-- A raised Python exception: either a `BillingError` or any other
exception (identified by its rendering). -/
inductive Exn where
  | billing (e : BillingError)
  | other (s : String)
deriving DecidableEq

/-- An HTTP response produced by the billing views. -/
inductive Response where
  | jsonSuccess
  | jsonError (message : String) (error_description : String)
  | redirect (url : String)
  | render404
  | upgradePage (seat_count : Int) (signed_seat_count : SignedString)
      (salt : String) (min_invoiced_licenses : Int) (percent_off : Int)
  | billingPageNoAdmin
  | billingPage (plan_name : String) (licenses : Int)
      (payment_method : String) (billed_by_invoice : Bool)
deriving DecidableEq

/-!
## `unsign_seat_count` and `check_upgrade_parameters` (from the source)
-/

/-- `unsign_seat_count` from `corporate/views.py`: unsign and parse the
seat count.  A signature mismatch is caught and re-raised as
`BillingError('tampered seat count')`; a parse failure of `int` is a
`ValueError`, which the function does not catch. -/
def unsign_seat_count (signed_seat_count : SignedString) (salt : String) :
    Except Exn Int :=
  match unsign_string signed_seat_count salt with
  | none => .error (.billing (billingError "tampered seat count"))
  | some s =>
    match pyInt? s with
    | some n => .ok n
    | none => .error (.other "ValueError")

/-- Modelled from the spec: `MIN_INVOICED_LICENSES` is a fixed
commercial floor for invoiced purchases (the spec's example value). -/
def MIN_INVOICED_LICENSES : Int := 25

/-- The user-facing insufficient-licenses message, embedding the
computed minimum (`"You must invoice for at least ... users."`). -/
def invoiceAtLeastMsg (m : Int) : String :=
  "You must invoice for at least " ++ toString m ++ " users."

/-- `check_upgrade_parameters` from `corporate/views.py`.
`license_management` and `licenses` arrive from request parameters with
default `None`, hence the `Option` types. -/
def check_upgrade_parameters (billing_modality schedule : String)
    (license_management : Option String) (licenses : Option Int)
    (has_stripe_token : Bool) (seat_count : Int) : Except BillingError Unit :=
  if billing_modality ∉ (["send_invoice", "charge_automatically"] : List String) then
    .error (billingError "unknown billing_modality")
  else if schedule ∉ (["annual", "monthly"] : List String) then
    .error (billingError "unknown schedule")
  else if license_management ∉
      ([some "automatic", some "manual", some "mix"] : List (Option String)) then
    .error (billingError "unknown license_management")
  else if billing_modality = "charge_automatically" ∧ has_stripe_token = false then
    .error (billingError "autopay with no card")
  else
    let min_licenses : Int :=
      if billing_modality = "send_invoice" then max seat_count MIN_INVOICED_LICENSES
      else seat_count
    match licenses with
    | none => .error ⟨"not enough licenses", invoiceAtLeastMsg min_licenses⟩
    | some l =>
      if l < min_licenses then
        .error ⟨"not enough licenses", invoiceAtLeastMsg min_licenses⟩
      else .ok ()

/-!
## The `upgrade` request handler (from the source)
-/

/-- Modelled from the spec: the billing cadence constants
`CustomerPlan.ANNUAL` / `CustomerPlan.MONTHLY`. -/
inductive BillingSchedule where
  | annual
  | monthly
deriving DecidableEq

/-- The schedule-string to cadence-constant dictionary used in
`upgrade`; `none` models a `KeyError` on lookup. -/
def billingScheduleOf (schedule : String) : Option BillingSchedule :=
  if schedule = "annual" then some .annual
  else if schedule = "monthly" then some .monthly
  else none

/-- The request parameters of `upgrade`; `license_management`,
`licenses` and `stripe_token` have request default `None`. -/
structure UpgradeRequest where
  billing_modality : String
  schedule : String
  license_management : Option String
  licenses : Option Int
  stripe_token : Option String
  signed_seat_count : SignedString
  salt : String
deriving DecidableEq

/-- The two normalization `if` statements of `upgrade`, run after the
seat count is unsigned and before `check_upgrade_parameters`. -/
def normalizeUpgradeParams (billing_modality schedule : String)
    (license_management : Option String) (licenses : Option Int)
    (seat_count : Int) : String × Option String × Option Int :=
  let licenses :=
    if billing_modality = "charge_automatically" ∧ license_management = some "automatic"
    then some seat_count else licenses
  let schedule := if billing_modality = "send_invoice" then "annual" else schedule
  let license_management :=
    if billing_modality = "send_invoice" then some "manual" else license_management
  (schedule, license_management, licenses)

/-- The body of the `try` block of `upgrade`: unsign the seat count,
normalize, validate, resolve the cadence constant, and run
`process_initial_upgrade` (abstracted as `process`, since it lives in
`corporate/lib/stripe.py`). -/
def upgradeBody
    (process : Option Int → BillingSchedule → Option String → Except Exn Unit)
    (req : UpgradeRequest) : Except Exn Unit := do
  let seat_count ← unsign_seat_count req.signed_seat_count req.salt
  let (schedule, license_management, licenses) :=
    normalizeUpgradeParams req.billing_modality req.schedule
      req.license_management req.licenses seat_count
  match check_upgrade_parameters req.billing_modality schedule license_management
      licenses req.stripe_token.isSome seat_count with
  | .error e => throw (.billing e)
  | .ok () =>
    match billingScheduleOf schedule with
    | none => throw (.other "KeyError")
    | some billing_schedule => process licenses billing_schedule req.stripe_token

/-- `upgrade` from `corporate/views.py`: run the body and convert any
raised exception at the boundary — a `BillingError` into a structured
failure response, anything else into the generic contact-support
message with description `"uncaught exception during upgrade"`. -/
def upgrade
    (process : Option Int → BillingSchedule → Option String → Except Exn Unit)
    (req : UpgradeRequest) : Response :=
  match upgradeBody process req with
  | .ok () => .jsonSuccess
  | .error (.billing e) => .jsonError e.message e.description
  | .error (.other _) =>
    .jsonError CONTACT_SUPPORT "uncaught exception during upgrade"

/-!
## Local persistence model and `initial_upgrade` (from the source)
-/

/-- A `Customer` record, with the fields `initial_upgrade` and
`billing_home` read. -/
structure Customer where
  realm : Nat
  stripe_customer_id : String
  has_billing_relationship : Bool
  default_discount : Option Int
deriving DecidableEq

/-- A `CustomerPlan` record, keyed here only by the owning realm. -/
structure CustomerPlanRec where
  customer_realm : Nat
deriving DecidableEq

/-- The local persistence state: `Customer` and `CustomerPlan` tables. -/
structure Db where
  customers : List Customer
  plans : List CustomerPlanRec
deriving DecidableEq

/-- `Customer.objects.filter(realm=realm).first()`. -/
def firstCustomer (db : Db) (realm : Nat) : Option Customer :=
  (db.customers.filter (fun c => c.realm = realm)).head?

/-- The acting user, with the fields the views read. -/
structure UserProfile where
  realm : Nat
  email : String
  is_realm_admin : Bool
  is_billing_admin : Bool
deriving DecidableEq

/-- The upgrade-page render of `initial_upgrade`: sign the current seat
count under a fresh salt and emit the page context fields the claims
concern (seat count, signed count, salt, invoiced minimum, discount).
`get_seat_count` is the seat-count derivation from
`corporate/lib/stripe.py`, abstracted as a function of the realm;
`fresh_salt` is the salt that `sign_string` draws. -/
def renderUpgradePage (get_seat_count : Nat → Nat) (fresh_salt : String)
    (db : Db) (user : UserProfile) (percent_off : Int) : Response × Db :=
  let seat_count := get_seat_count user.realm
  let signed := sign_string (pyStr seat_count) fresh_salt
  (.upgradePage (seat_count : Int) signed fresh_salt
      (max (seat_count : Int) MIN_INVOICED_LICENSES) percent_off, db)

/-- `initial_upgrade` from `corporate/views.py`: 404 when billing is
disabled; redirect to `billing_home` when the realm's customer already
has a billing relationship; otherwise render the upgrade page.  The
function performs no writes, so the persistence state is returned
unchanged. -/
def initial_upgrade (billing_enabled : Bool) (get_seat_count : Nat → Nat)
    (fresh_salt : String) (db : Db) (user : UserProfile) : Response × Db :=
  if billing_enabled = false then (.render404, db)
  else
    match firstCustomer db user.realm with
    | some customer =>
      if customer.has_billing_relationship then
        (.redirect "corporate.views.billing_home", db)
      else
        renderUpgradePage get_seat_count fresh_salt db user
          (match customer.default_discount with
           | some d => d
           | none => 0)
    | none => renderUpgradePage get_seat_count fresh_salt db user 0

/-!
## Stripe snapshot model, `payment_method_string` and `billing_home`
-/

/-- Modelled from the spec: a default payment source snapshot — a
closed view of the processor's source object with its `object` tag,
card last-four digits, and processor-internal `type` string. -/
structure StripeSource where
  object : String
  last4 : String
  type : String
deriving DecidableEq

/-- Modelled from the spec: a subscription snapshot (plan identifier,
quantity, period end, billing mode). -/
structure StripeSubscription where
  plan_id : String
  quantity : Int
  current_period_end : Int
  billing : String
deriving DecidableEq

/-- Modelled from the spec: a processor customer snapshot. -/
structure StripeCustomer where
  email : String
  account_balance : Int
  default_source : Option StripeSource
  subscription : Option StripeSubscription
deriving DecidableEq

/-- Modelled from the spec: `extract_current_subscription` from
`corporate/lib/stripe.py` returns the customer's current subscription
snapshot, if any. -/
def extract_current_subscription (c : StripeCustomer) : Option StripeSubscription :=
  c.subscription

/-- The fall-through of `payment_method_string` after the send-invoice
check: describe the default payment source. -/
def payment_source_string (stripe_customer : StripeCustomer) : String :=
  match stripe_customer.default_source with
  | none => "No payment method on file"
  | some stripe_source =>
    if stripe_source.object = "card" then
      "Card ending in " ++ stripe_source.last4
    else
      "Unknown payment method. Please contact " ++ ZULIP_ADMINISTRATOR ++ "."

/-- `payment_method_string` from `corporate/views.py`. -/
def payment_method_string (stripe_customer : StripeCustomer) : String :=
  match extract_current_subscription stripe_customer with
  | some subscription =>
    if subscription.billing = "send_invoice" then "Billed by invoice"
    else payment_source_string stripe_customer
  | none => payment_source_string stripe_customer

/-- `billing_home` from `corporate/views.py`: redirect to
`initial_upgrade` when there is no customer or no billing relationship;
otherwise fetch the processor snapshot and render the billing state.
`stripe_get_customer` and `plan_name_of` (the `PLAN_NAMES`/`Plan`
lookup) abstract the processor fetch and plan reference data; the
display-only balance and renewal-amount formatting is elided. -/
def billing_home (stripe_get_customer : String → StripeCustomer)
    (plan_name_of : String → String) (db : Db) (user : UserProfile) : Response :=
  match firstCustomer db user.realm with
  | none => .redirect "corporate.views.initial_upgrade"
  | some customer =>
    if customer.has_billing_relationship = false then
      .redirect "corporate.views.initial_upgrade"
    else if user.is_realm_admin = false ∧ user.is_billing_admin = false then
      .billingPageNoAdmin
    else
      let stripe_customer := stripe_get_customer customer.stripe_customer_id
      match extract_current_subscription stripe_customer with
      | some subscription =>
        .billingPage (plan_name_of subscription.plan_id) subscription.quantity
          (payment_method_string stripe_customer)
          (subscription.billing = "send_invoice")
      | none =>
        .billingPage "Zulip Free" 0 (payment_method_string stripe_customer) false

/-!
## `downgrade` and `replace_payment_source` (from the source)

Both wrap their stripe-library call in a `try` that catches only
`BillingError`; any other exception escapes the view, so the result
type is `Except Exn Response`.
-/

/-- `downgrade` from `corporate/views.py`; `process_downgrade` (from
`corporate/lib/stripe.py`) is abstracted as its outcome. -/
def downgrade (process_downgrade : Except Exn Unit) : Except Exn Response :=
  match process_downgrade with
  | .ok () => .ok .jsonSuccess
  | .error (.billing e) => .ok (.jsonError e.message e.description)
  | .error (.other m) => .error (.other m)

/-- `replace_payment_source` from `corporate/views.py`;
`do_replace_payment_source` is abstracted as a function of the token. -/
def replace_payment_source (do_replace : String → Except Exn Unit)
    (stripe_token : String) : Except Exn Response :=
  match do_replace stripe_token with
  | .ok () => .ok .jsonSuccess
  | .error (.billing e) => .ok (.jsonError e.message e.description)
  | .error (.other m) => .error (.other m)

/-!
## Spec-side model of the validation order (for the refinement claim)
-/

/-- Follows the claim's words: the first violated rule, checked in the
fixed order billing-modality membership, schedule membership,
license-management membership, payment-token requirement,
minimum-licenses rule; `none` when no rule is violated. -/
def firstViolationError (billing_modality schedule : String)
    (license_management : Option String) (licenses : Option Int)
    (has_stripe_token : Bool) (seat_count : Int) : Option BillingError :=
  if billing_modality ∉ (["send_invoice", "charge_automatically"] : List String) then
    some (billingError "unknown billing_modality")
  else if schedule ∉ (["annual", "monthly"] : List String) then
    some (billingError "unknown schedule")
  else if license_management ∉
      ([some "automatic", some "manual", some "mix"] : List (Option String)) then
    some (billingError "unknown license_management")
  else if billing_modality = "charge_automatically" ∧ has_stripe_token = false then
    some (billingError "autopay with no card")
  else
    let m : Int :=
      if billing_modality = "send_invoice" then max seat_count MIN_INVOICED_LICENSES
      else seat_count
    match licenses with
    | none => some ⟨"not enough licenses", invoiceAtLeastMsg m⟩
    | some l =>
      if l < m then some ⟨"not enough licenses", invoiceAtLeastMsg m⟩ else none

/-!
## Helper lemmas: the decimal round-trip and the signer round-trip
-/

theorem pyDigitVal_pyDigitChar {d : Nat} (h : d < 10) :
    pyDigitVal (pyDigitChar d) = d := by
  interval_cases d <;> rfl

theorem isPyDigit_pyDigitChar {d : Nat} (h : d < 10) :
    isPyDigit (pyDigitChar d) = true := by
  interval_cases d <;> rfl

theorem pyStr_spec (n : Nat) :
    (pyStr n).data ≠ [] ∧ (pyStr n).data.all isPyDigit = true ∧
      Nat.ofDigits 10 ((pyStr n).data.reverse.map pyDigitVal) = n := by
  by_cases h0 : n = 0
  · subst h0; refine ⟨by decide, by decide, by decide⟩
  · have hne : Nat.digits 10 n ≠ [] := Nat.digits_ne_nil_iff_ne_zero.mpr h0
    have hdata : (pyStr n).data = ((Nat.digits 10 n).map pyDigitChar).reverse := by
      simp [pyStr, h0]
    refine ⟨?_, ?_, ?_⟩
    · rw [hdata]
      simp only [ne_eq, List.reverse_eq_nil_iff, List.map_eq_nil_iff]
      exact hne
    · rw [hdata, List.all_eq_true]
      intro c hc
      rw [List.mem_reverse, List.mem_map] at hc
      obtain ⟨d, hd, rfl⟩ := hc
      exact isPyDigit_pyDigitChar (Nat.digits_lt_base (by norm_num) hd)
    · rw [hdata, List.reverse_reverse, List.map_map]
      have hmap : (Nat.digits 10 n).map (pyDigitVal ∘ pyDigitChar) =
          (Nat.digits 10 n).map id := by
        apply List.map_congr_left
        intro d hd
        simp [Function.comp, pyDigitVal_pyDigitChar (Nat.digits_lt_base (by norm_num) hd)]
      rw [hmap, List.map_id, Nat.ofDigits_digits]

theorem pyParseNat_pyStr (n : Nat) : pyParseNat (pyStr n) = some n := by
  obtain ⟨h1, h2, h3⟩ := pyStr_spec n
  rw [List.map_reverse] at h3
  simp [pyParseNat, h1, h2, h3]

theorem pyInt_pyStr (n : Nat) : pyInt? (pyStr n) = some (n : Int) := by
  have hall := (pyStr_spec n).2.1
  have hparse := pyParseNat_pyStr n
  unfold pyInt?
  split
  · next rest heq =>
    rw [heq, List.all_cons] at hall
    have hdash : isPyDigit '-' = false := rfl
    rw [hdash] at hall
    simp at hall
  · rw [hparse]; rfl

theorem unsign_sign_ok (n : Nat) (salt : String) :
    unsign_seat_count (sign_string (pyStr n) salt) salt = .ok (n : Int) := by
  simp [unsign_seat_count, unsign_string, sign_string, pyInt_pyStr]

/-!
## Claims about `check_upgrade_parameters`
-/

/-- C3: with `billing_modality = "send_invoice"` and valid enum fields,
the effective minimum license count is `max seat_count
MIN_INVOICED_LICENSES`: absent or lower `licenses` fail with the
insufficient-licenses error whose message embeds exactly that minimum,
and `licenses` at or above it pass; with `"charge_automatically"` (and
a token) the minimum is `seat_count`. -/
theorem c3_invoiced_minimum_licenses :
    ∀ (schedule : String) (license_management : Option String)
      (licenses : Option Int) (has_stripe_token : Bool) (seat_count : Int),
      schedule ∈ (["annual", "monthly"] : List String) →
      license_management ∈
        ([some "automatic", some "manual", some "mix"] : List (Option String)) →
      ((licenses = none ∨
          ∃ l, licenses = some l ∧ l < max seat_count MIN_INVOICED_LICENSES) →
        check_upgrade_parameters "send_invoice" schedule license_management
            licenses has_stripe_token seat_count =
          .error ⟨"not enough licenses",
            "You must invoice for at least " ++
              toString (max seat_count MIN_INVOICED_LICENSES) ++ " users."⟩) ∧
      (∀ l, licenses = some l → max seat_count MIN_INVOICED_LICENSES ≤ l →
        check_upgrade_parameters "send_invoice" schedule license_management
            licenses has_stripe_token seat_count = .ok ()) ∧
      (has_stripe_token = true →
        ((licenses = none ∨ ∃ l, licenses = some l ∧ l < seat_count) →
          check_upgrade_parameters "charge_automatically" schedule
              license_management licenses has_stripe_token seat_count =
            .error ⟨"not enough licenses",
              "You must invoice for at least " ++ toString seat_count ++
                " users."⟩) ∧
        (∀ l, licenses = some l → seat_count ≤ l →
          check_upgrade_parameters "charge_automatically" schedule
              license_management licenses has_stripe_token seat_count = .ok ())) := by
  intro schedule lm licenses tok sc hs hl
  fin_cases hs <;> fin_cases hl <;>
    refine ⟨?_, ?_, fun htok => ⟨?_, ?_⟩⟩ <;>
    first
      | (rintro (rfl | ⟨l, rfl, hlt⟩) <;>
          simp_all [check_upgrade_parameters, invoiceAtLeastMsg])
      | (rintro l rfl hge
         simp_all [check_upgrade_parameters, invoiceAtLeastMsg])

/-- C3 witness: a concrete instantiation (invoiced purchase of 5
licenses against a seat count of 12 fails, demanding at least 25). -/
theorem c3_witness :
    check_upgrade_parameters "send_invoice" "annual" (some "manual")
        (some 5) false 12 =
      .error ⟨"not enough licenses",
        "You must invoice for at least " ++ toString (max (12 : Int) MIN_INVOICED_LICENSES) ++
          " users."⟩ :=
  ((c3_invoiced_minimum_licenses "annual" (some "manual") (some 5) false 12
      (by decide) (by decide)).1 (Or.inr ⟨5, rfl, by decide⟩))

/-- C4 counterexample: with `billing_modality = "charge_automatically"`
and no token but an unknown schedule, validation fails with the
unknown-schedule error, not the missing-payment-method error — so the
missing-payment error is not raised "regardless of the other fields". -/
theorem c4_counterexample :
    check_upgrade_parameters "charge_automatically" "weekly" (some "automatic")
        (some 100) false 5 = .error (billingError "unknown schedule") ∧
      billingError "unknown schedule" ≠ billingError "autopay with no card" := by
  constructor
  · rfl
  · decide

/-- C4 amended: with `billing_modality = "charge_automatically"`, no
token, and valid `schedule` and `license_management`, validation always
fails with the missing-payment-method error, regardless of `licenses`
and `seat_count`. -/
theorem c4_missing_payment_method :
    ∀ (schedule : String) (license_management : Option String)
      (licenses : Option Int) (seat_count : Int),
      schedule ∈ (["annual", "monthly"] : List String) →
      license_management ∈
        ([some "automatic", some "manual", some "mix"] : List (Option String)) →
      check_upgrade_parameters "charge_automatically" schedule license_management
          licenses false seat_count = .error (billingError "autopay with no card") := by
  intro schedule lm licenses sc hs hl
  fin_cases hs <;> fin_cases hl <;> rfl

/-- C4 amended witness: concrete instantiation. -/
theorem c4_witness :
    check_upgrade_parameters "charge_automatically" "monthly" (some "mix")
        none false 3 = .error (billingError "autopay with no card") :=
  c4_missing_payment_method "monthly" (some "mix") none 3 (by decide) (by decide)

/-- C10: `check_upgrade_parameters` raises exactly the first violated
rule in the fixed order billing-modality membership, schedule
membership, license-management membership, payment-token requirement,
minimum-licenses rule (`firstViolationError` restates that order from
the claim). -/
theorem c10_fixed_validation_order :
    ∀ (billing_modality schedule : String) (license_management : Option String)
      (licenses : Option Int) (has_stripe_token : Bool) (seat_count : Int),
      check_upgrade_parameters billing_modality schedule license_management
          licenses has_stripe_token seat_count =
        match firstViolationError billing_modality schedule license_management
            licenses has_stripe_token seat_count with
        | some e => .error e
        | none => .ok () := by
  intro bm schedule lm licenses tok sc
  unfold check_upgrade_parameters firstViolationError
  split_ifs <;> (try rfl) <;>
    (cases licenses <;> (first | rfl | (simp only []; split_ifs <;> rfl)))

/-!
## Claims about the signer and the `upgrade` handler
-/

/-- C1: every seat count signed as `initial_upgrade` signs it (the
decimal rendering of the count, including every pair emitted on the
rendered upgrade page) is returned unchanged by `unsign_seat_count`;
and every (signed value, salt) pair that is not the result of signing
some payload with that salt fails with
`BillingError "tampered seat count"`. -/
theorem c1_seat_count_signer_roundtrip_and_tamper_evidence :
    (∀ (n : Nat) (salt : String),
      unsign_seat_count (sign_string (pyStr n) salt) salt = .ok (n : Int)) ∧
    (∀ (get_seat_count : Nat → Nat) (fresh_salt : String) (db : Db)
        (u : UserProfile) (po sc mi : Int) (signed : SignedString) (s : String),
      renderUpgradePage get_seat_count fresh_salt db u po =
        (.upgradePage sc signed s mi po, db) →
      unsign_seat_count signed s = .ok sc) ∧
    (∀ (signed : SignedString) (salt : String),
      (∀ value , signed ≠ sign_string value salt) →
      unsign_seat_count signed salt =
        .error (.billing (billingError "tampered seat count"))) := by
  refine ⟨unsign_sign_ok, ?_, ?_⟩
  · intro gsc fresh_salt db u po sc mi signed s h
    simp only [renderUpgradePage, Prod.mk.injEq, Response.upgradePage.injEq] at h
    obtain ⟨⟨hsc, hsigned, hs, -, -⟩, -⟩ := h
    subst hsc; subst hsigned; subst hs
    exact unsign_sign_ok (gsc u.realm) fresh_salt
  · intro signed salt h
    rcases signed with ⟨v, sg⟩
    by_cases hsig : sg = Sig.mac v salt
    · subst hsig
      exact absurd rfl (h v)
    · simp [unsign_seat_count, unsign_string, hsig]

/-- C1 witness: a signed seat count of 7 round-trips; a token whose
signature was issued under a different salt is rejected as tampered. -/
theorem c1_witness :
    unsign_seat_count (sign_string (pyStr 7) "s0") "s0" = .ok (7 : Int) ∧
    unsign_seat_count ⟨"12", Sig.mac "12" "saltA"⟩ "saltB" =
      .error (.billing (billingError "tampered seat count")) :=
  ⟨c1_seat_count_signer_roundtrip_and_tamper_evidence.1 7 "s0",
   c1_seat_count_signer_roundtrip_and_tamper_evidence.2.2
     ⟨"12", Sig.mac "12" "saltA"⟩ "saltB" (by
       intro value hv
       have h2 : Sig.mac "12" "saltA" = Sig.mac value "saltB" :=
         congrArg SignedString.sig hv
       injection h2 with hval hsalt
       exact absurd hsalt (by decide))⟩

/-- C2: normalization precedes validation in `upgrade` — under
`charge_automatically`/`automatic`, the licenses value handed to
validation is the verified seat count, and the whole handler behaves as
if the request had carried that value; under `send_invoice`, the
schedule and license-management values handed to validation are
`"annual"`/`"manual"`, and the handler behaves as if the request had
carried them. -/
theorem c2_normalization_precedes_validation :
    ∀ (process : Option Int → BillingSchedule → Option String → Except Exn Unit)
      (req : UpgradeRequest) (sc : Int),
      unsign_seat_count req.signed_seat_count req.salt = .ok sc →
      ((req.billing_modality = "charge_automatically" ∧
          req.license_management = some "automatic" →
        (normalizeUpgradeParams req.billing_modality req.schedule
            req.license_management req.licenses sc).2.2 = some sc ∧
        upgrade process req = upgrade process { req with licenses := some sc }) ∧
       (req.billing_modality = "send_invoice" →
        (normalizeUpgradeParams req.billing_modality req.schedule
            req.license_management req.licenses sc).1 = "annual" ∧
        (normalizeUpgradeParams req.billing_modality req.schedule
            req.license_management req.licenses sc).2.1 = some "manual" ∧
        upgrade process req =
          upgrade process
            { req with schedule := "annual", license_management := some "manual" })) := by
  intro process req sc hun
  constructor
  · rintro ⟨hbm, hlm⟩
    constructor
    · simp [normalizeUpgradeParams, hbm, hlm]
    · simp [upgrade, upgradeBody, normalizeUpgradeParams, hun, hbm, hlm]
  · intro hbm
    refine ⟨?_, ?_, ?_⟩
    · simp [normalizeUpgradeParams, hbm]
    · simp [normalizeUpgradeParams, hbm]
    · simp [upgrade, upgradeBody, normalizeUpgradeParams, hun, hbm]

/-- C2 witness: concrete instantiations of both normalization rules. -/
theorem c2_witness :
    upgrade (fun _ _ _ => .ok ())
        ⟨"charge_automatically", "monthly", some "automatic", some 99,
          some "tok", sign_string (pyStr 4) "s1", "s1"⟩ =
      upgrade (fun _ _ _ => .ok ())
        ⟨"charge_automatically", "monthly", some "automatic", some 4,
          some "tok", sign_string (pyStr 4) "s1", "s1"⟩ ∧
    upgrade (fun _ _ _ => .ok ())
        ⟨"send_invoice", "monthly", some "mix", some 40,
          none, sign_string (pyStr 4) "s1", "s1"⟩ =
      upgrade (fun _ _ _ => .ok ())
        ⟨"send_invoice", "annual", some "manual", some 40,
          none, sign_string (pyStr 4) "s1", "s1"⟩ :=
  ⟨((c2_normalization_precedes_validation (fun _ _ _ => .ok ())
      ⟨"charge_automatically", "monthly", some "automatic", some 99,
        some "tok", sign_string (pyStr 4) "s1", "s1"⟩ 4
      (unsign_sign_ok 4 "s1")).1 ⟨rfl, rfl⟩).2,
   ((c2_normalization_precedes_validation (fun _ _ _ => .ok ())
      ⟨"send_invoice", "monthly", some "mix", some 40,
        none, sign_string (pyStr 4) "s1", "s1"⟩ 4
      (unsign_sign_ok 4 "s1")).2 rfl).2.2⟩

/-- C7: the `upgrade` boundary converts a raised `BillingError` into a
structured failure response carrying its message and description, and
converts any other exception into the generic contact-support message
with description "uncaught exception during upgrade"; no exception
escapes (the handler totally maps every body outcome to a response). -/
theorem c7_upgrade_boundary_error_classification :
    ∀ (process : Option Int → BillingSchedule → Option String → Except Exn Unit)
      (req : UpgradeRequest),
      (upgradeBody process req = .ok () →
        upgrade process req = .jsonSuccess) ∧
      (∀ e, upgradeBody process req = .error (.billing e) →
        upgrade process req = .jsonError e.message e.description) ∧
      (∀ m, upgradeBody process req = .error (.other m) →
        upgrade process req =
          .jsonError CONTACT_SUPPORT "uncaught exception during upgrade") := by
  intro process req
  refine ⟨fun h => ?_, fun e h => ?_, fun m h => ?_⟩ <;> simp [upgrade, h]

/-- C7 witness: a successful body yields success; a tampered seat count
yields the structured billing failure; a processor crash yields the
generic contact-support response. -/
theorem c7_witness :
    upgrade (fun _ _ _ => .ok ())
        ⟨"send_invoice", "annual", some "manual", some 30, none,
          sign_string (pyStr 5) "sA", "sA"⟩ = .jsonSuccess ∧
    upgrade (fun _ _ _ => .ok ())
        ⟨"send_invoice", "annual", some "manual", some 30, none,
          ⟨"5", Sig.mac "5" "sA"⟩, "sB"⟩ =
      .jsonError (billingError "tampered seat count").message
        (billingError "tampered seat count").description ∧
    upgrade (fun _ _ _ => .error (.other "stripe crashed"))
        ⟨"send_invoice", "annual", some "manual", some 30, none,
          sign_string (pyStr 5) "sA", "sA"⟩ =
      .jsonError CONTACT_SUPPORT "uncaught exception during upgrade" :=
  ⟨(c7_upgrade_boundary_error_classification (fun _ _ _ => .ok ())
      ⟨"send_invoice", "annual", some "manual", some 30, none,
        sign_string (pyStr 5) "sA", "sA"⟩).1
     (by unfold upgradeBody; rw [unsign_sign_ok 5 "sA"]; rfl),
   (c7_upgrade_boundary_error_classification (fun _ _ _ => .ok ())
      ⟨"send_invoice", "annual", some "manual", some 30, none,
        ⟨"5", Sig.mac "5" "sA"⟩, "sB"⟩).2.1
     (billingError "tampered seat count") rfl,
   (c7_upgrade_boundary_error_classification
      (fun _ _ _ => .error (.other "stripe crashed"))
      ⟨"send_invoice", "annual", some "manual", some 30, none,
        sign_string (pyStr 5) "sA", "sA"⟩).2.2 "stripe crashed"
     (by unfold upgradeBody; rw [unsign_sign_ok 5 "sA"]; rfl)⟩

/-!
## Claims about `initial_upgrade`, `billing_home`, `payment_method_string`
-/

/-- C5: when the realm's customer already has a billing relationship,
`initial_upgrade` redirects to `billing_home`, leaves the persistence
state untouched (for any seat-count derivation and any fresh salt, so
no part of the upgrade re-executes), and in particular preserves the
number of Customer and CustomerPlan records of the organization. -/
theorem c5_upgrade_idempotency_guard :
    ∀ (get_seat_count : Nat → Nat) (fresh_salt : String) (db : Db)
      (u : UserProfile) (c : Customer),
      firstCustomer db u.realm = some c →
      c.has_billing_relationship = true →
      initial_upgrade true get_seat_count fresh_salt db u =
        (.redirect "corporate.views.billing_home", db) ∧
      (((initial_upgrade true get_seat_count fresh_salt db u).2).customers.filter
          (fun k => k.realm = u.realm)).length =
        (db.customers.filter (fun k => k.realm = u.realm)).length ∧
      (((initial_upgrade true get_seat_count fresh_salt db u).2).plans.filter
          (fun p => p.customer_realm = u.realm)).length =
        (db.plans.filter (fun p => p.customer_realm = u.realm)).length := by
  intro gsc fresh_salt db u c hfc hrel
  have h : initial_upgrade true gsc fresh_salt db u =
      (.redirect "corporate.views.billing_home", db) := by
    simp [initial_upgrade, hfc, hrel]
  exact ⟨h, by rw [h], by rw [h]⟩

/-- C5 witness: a realm with exactly one Customer/CustomerPlan pair and
an established billing relationship is redirected. -/
theorem c5_witness :
    initial_upgrade true (fun _ => 8) "s2"
        ⟨[⟨1, "cus_1", true, none⟩], [⟨1⟩]⟩ ⟨1, "a@b", true, false⟩ =
      (.redirect "corporate.views.billing_home",
        ⟨[⟨1, "cus_1", true, none⟩], [⟨1⟩]⟩) :=
  (c5_upgrade_idempotency_guard (fun _ => 8) "s2"
    ⟨[⟨1, "cus_1", true, none⟩], [⟨1⟩]⟩ ⟨1, "a@b", true, false⟩
    ⟨1, "cus_1", true, none⟩ rfl rfl).1

/-- C9: when the realm has no Customer, or its Customer has no billing
relationship, `billing_home` redirects to `initial_upgrade` — for every
processor-fetch and plan-lookup oracle, so no billing state is fetched
or rendered. -/
theorem c9_billing_state_routing :
    ∀ (stripe_get_customer : String → StripeCustomer)
      (plan_name_of : String → String) (db : Db) (u : UserProfile),
      (firstCustomer db u.realm = none ∨
        ∃ c, firstCustomer db u.realm = some c ∧
          c.has_billing_relationship = false) →
      billing_home stripe_get_customer plan_name_of db u =
        .redirect "corporate.views.initial_upgrade" := by
  intro f g db u h
  rcases h with h | ⟨c, hc, hrel⟩
  · simp [billing_home, h]
  · simp [billing_home, hc, hrel]

/-- C9 witness: an empty customer table and a customer without a
billing relationship both redirect, under a nontrivial fetch oracle. -/
theorem c9_witness :
    billing_home (fun _ => ⟨"x", 50, some ⟨"card", "4242", "card"⟩,
        some ⟨"plan_1", 3, 0, "send_invoice"⟩⟩) (fun _ => "Zulip Standard")
      ⟨[], []⟩ ⟨1, "a@b", true, true⟩ = .redirect "corporate.views.initial_upgrade" ∧
    billing_home (fun _ => ⟨"x", 50, some ⟨"card", "4242", "card"⟩,
        some ⟨"plan_1", 3, 0, "send_invoice"⟩⟩) (fun _ => "Zulip Standard")
      ⟨[⟨1, "cus_1", false, none⟩], []⟩ ⟨1, "a@b", true, true⟩ =
      .redirect "corporate.views.initial_upgrade" :=
  ⟨c9_billing_state_routing _ _ ⟨[], []⟩ ⟨1, "a@b", true, true⟩ (Or.inl rfl),
   c9_billing_state_routing _ _ ⟨[⟨1, "cus_1", false, none⟩], []⟩
     ⟨1, "a@b", true, true⟩ (Or.inr ⟨⟨1, "cus_1", false, none⟩, rfl, rfl⟩)⟩

/-- Helper: when the current subscription (if any) is not billed by
invoice, `payment_method_string` falls through to the default-source
description. -/
theorem payment_method_string_fallthrough (c : StripeCustomer)
    (hnot : ∀ sub, extract_current_subscription c = some sub →
      sub.billing ≠ "send_invoice") :
    payment_method_string c = payment_source_string c := by
  unfold payment_method_string
  cases hsub : extract_current_subscription c with
  | none => rfl
  | some sub => simp [hnot sub hsub]

/-- C6: `payment_method_string` resolves in priority order — always
"Billed by invoice" when the current subscription is billed by invoice,
regardless of the stored source; else "No payment method on file" when
no default source exists; else the card description carrying the last
four digits verbatim; else the fixed contact-support message, which is
independent of the processor-internal source `type` string. -/
theorem c6_payment_method_description_priority :
    ∀ (c : StripeCustomer),
      (∀ sub, extract_current_subscription c = some sub →
        sub.billing = "send_invoice" →
        payment_method_string c = "Billed by invoice") ∧
      ((∀ sub, extract_current_subscription c = some sub →
          sub.billing ≠ "send_invoice") →
        ((c.default_source = none →
          payment_method_string c = "No payment method on file") ∧
        (∀ src, c.default_source = some src → src.object = "card" →
          payment_method_string c = "Card ending in " ++ src.last4) ∧
        (∀ src, c.default_source = some src → src.object ≠ "card" →
          payment_method_string c =
            "Unknown payment method. Please contact " ++ ZULIP_ADMINISTRATOR ++ "." ∧
          (∀ t, payment_method_string
              { c with default_source := some { src with type := t } } =
            payment_method_string c)))) := by
  intro c
  constructor
  · intro sub hsub hbill
    simp [payment_method_string, hsub, hbill]
  · intro hnot
    have hps := payment_method_string_fallthrough c hnot
    refine ⟨?_, ?_, ?_⟩
    · intro hds
      simp [hps, payment_source_string, hds]
    · intro src hds hobj
      simp [hps, payment_source_string, hds, hobj]
    · intro src hds hobj
      have hres : payment_method_string c =
          "Unknown payment method. Please contact " ++ ZULIP_ADMINISTRATOR ++ "." := by
        simp [hps, payment_source_string, hds, hobj]
      refine ⟨hres, ?_⟩
      intro t
      have hnot' : ∀ sub, extract_current_subscription
          { c with default_source := some { src with type := t } } = some sub →
          sub.billing ≠ "send_invoice" := by
        intro sub hsub
        exact hnot sub hsub
      have hps' := payment_method_string_fallthrough _ hnot'
      rw [hps', hres]
      simp [payment_source_string, hobj]

/-- C6 witness: the four description cases at concrete snapshots. -/
theorem c6_witness :
    payment_method_string ⟨"e", 0, some ⟨"card", "4242", "card"⟩,
        some ⟨"plan_1", 10, 0, "send_invoice"⟩⟩ = "Billed by invoice" ∧
    payment_method_string ⟨"e", 0, none, none⟩ = "No payment method on file" ∧
    payment_method_string ⟨"e", 0, some ⟨"card", "4242", "card"⟩, none⟩ =
      "Card ending in " ++ "4242" ∧
    payment_method_string ⟨"e", 0, some ⟨"source", "", "ach_credit_transfer"⟩, none⟩ =
      "Unknown payment method. Please contact " ++ ZULIP_ADMINISTRATOR ++ "." :=
  ⟨(c6_payment_method_description_priority _).1 ⟨"plan_1", 10, 0, "send_invoice"⟩ rfl rfl,
   ((c6_payment_method_description_priority ⟨"e", 0, none, none⟩).2
      (fun sub h => Option.noConfusion h)).1 rfl,
   ((c6_payment_method_description_priority
      ⟨"e", 0, some ⟨"card", "4242", "card"⟩, none⟩).2
      (fun sub h => Option.noConfusion h)).2.1 ⟨"card", "4242", "card"⟩ rfl rfl,
   (((c6_payment_method_description_priority
      ⟨"e", 0, some ⟨"source", "", "ach_credit_transfer"⟩, none⟩).2
      (fun sub h => Option.noConfusion h)).2.2
      ⟨"source", "", "ach_credit_transfer"⟩ rfl (by decide)).1⟩

/-!
## Claim about `downgrade` / `replace_payment_source`
-/

/-- C8 counterexample: a non-`BillingError` failure of the stripe call
is not converted by `downgrade` or `replace_payment_source` — it
escapes the view as an uncaught exception instead of becoming a
contact-support response. -/
theorem c8_counterexample :
    downgrade (.error (.other "stripe.error.APIError: boom")) =
      .error (.other "stripe.error.APIError: boom") ∧
    replace_payment_source (fun _ => .error (.other "stripe.error.APIError: boom"))
        "tok_visa" = .error (.other "stripe.error.APIError: boom") :=
  ⟨rfl, rfl⟩

/-- C8 amended: `downgrade` and `replace_payment_source` convert a
raised `BillingError` into a structured failure response carrying its
message and description, but catch nothing else: any non-`BillingError`
failure propagates out of the view uncaught (it is not logged there nor
converted to a contact-support response). -/
theorem c8_error_propagation :
    ∀ (pd : Except Exn Unit) (dr : String → Except Exn Unit) (tok : String),
      (pd = .ok () → downgrade pd = .ok .jsonSuccess) ∧
      (∀ e, pd = .error (.billing e) →
        downgrade pd = .ok (.jsonError e.message e.description)) ∧
      (∀ m, pd = .error (.other m) → downgrade pd = .error (.other m)) ∧
      (dr tok = .ok () → replace_payment_source dr tok = .ok .jsonSuccess) ∧
      (∀ e, dr tok = .error (.billing e) →
        replace_payment_source dr tok = .ok (.jsonError e.message e.description)) ∧
      (∀ m, dr tok = .error (.other m) →
        replace_payment_source dr tok = .error (.other m)) := by
  intro pd dr tok
  refine ⟨fun h => ?_, fun e h => ?_, fun m h => ?_,
    fun h => ?_, fun e h => ?_, fun m h => ?_⟩ <;>
    simp [downgrade, replace_payment_source, h]

/-- C8 amended witness: concrete outcomes for both operations. -/
theorem c8_witness :
    downgrade (.error (.billing (billingError "no customer"))) =
      .ok (.jsonError (billingError "no customer").message
        (billingError "no customer").description) ∧
    downgrade (.error (.other "KeyError")) = .error (.other "KeyError") ∧
    replace_payment_source (fun _ => .ok ()) "tok_visa" = .ok .jsonSuccess :=
  ⟨(c8_error_propagation (.error (.billing (billingError "no customer")))
      (fun _ => .ok ()) "tok_visa").2.1 (billingError "no customer") rfl,
   (c8_error_propagation (.error (.other "KeyError"))
      (fun _ => .ok ()) "tok_visa").2.2.1 "KeyError" rfl,
   (c8_error_propagation (.error (.other "KeyError"))
      (fun _ => .ok ()) "tok_visa").2.2.2.1 rfl⟩

end Billing





